import Mathlib

/-!
Verification of the paramiko SSH connection plugin
(`lib/ansible/runner/connection_plugins/paramiko_ssh.py`).

The plugin is shallowly embedded: the in-memory host-key store becomes a
list of entries (the plugin iterates the two-level `_host_keys` dict in a
fixed enumeration order, captured here as the list order), the global
connection caches become association lists inside an explicit state
record, the sudo prompt-scanning `while` loop becomes a structurally
recursive function over the list of received chunks, and the
environment-dependent `int(os.getenv(...))` calls become an `Except`
valued parser with Python's `int()` semantics.
-/

set_option autoImplicit false

namespace ParamikoSsh

/-! ## Host-key trust store (`_save_ssh_host_keys`, lines 218-251) -/

/-- One `(hostname, keytype, key)` entry of `self.ssh._host_keys`, flattened
from the two-level dict in its enumeration order.  `addedThisTime` models the
`_added_by_ansible_this_time` attribute set by `MyAutoAddPolicy.missing_host_key`
(read back with `getattr(key, '_added_by_ansible_this_time', False)`). -/
structure HostKeyEntry where
  hostname : String
  keytype : String
  keyBase64 : String
  addedThisTime : Bool
  deriving DecidableEq, Repr

/-- The line `"%s %s %s\n" % (hostname, keytype, key.get_base64())` written by
`f.write` for one entry. -/
def formatLine (e : HostKeyEntry) : String :=
  e.hostname ++ " " ++ e.keytype ++ " " ++ e.keyBase64 ++ "\n"

/-- The `added_any` detection loop (lines 224-230): scans all entries for one
whose `_added_by_ansible_this_time` attribute is set. -/
def addedAny : List HostKeyEntry → Bool
  | [] => false
  | e :: rest => e.addedThisTime || addedAny rest

/-- First write loop (lines 240-245): writes the formatted line of every entry
NOT added this time, in iteration order. -/
def writeOldLoop : List HostKeyEntry → List String
  | [] => []
  | e :: rest =>
    (if e.addedThisTime then [] else [formatLine e]) ++ writeOldLoop rest

/-- Second write loop (lines 246-250): writes the formatted line of every entry
added this time, in iteration order. -/
def writeNewLoop : List HostKeyEntry → List String
  | [] => []
  | e :: rest =>
    (if e.addedThisTime then [formatLine e] else []) ++ writeNewLoop rest

/-- `_save_ssh_host_keys` (lines 218-251): returns `none` when the early
`if not added_any: return` fires (no file is opened or written), and
otherwise `some` of the list of lines written to the freshly truncated
trust file: the not-added loop's output followed by the added loop's. -/
def save_ssh_host_keys (ks : List HostKeyEntry) : Option (List String) :=
  if addedAny ks then some (writeOldLoop ks ++ writeNewLoop ks) else none

/-- The trust file's contents after `close` runs the persistence step with
in-memory entries `ks`: unchanged when `_save_ssh_host_keys` returns without
writing, else exactly the lines it wrote (the file is opened with mode `w`,
truncating). -/
def trustFileAfterClose (orig : List String) (ks : List HostKeyEntry) : List String :=
  match save_ssh_host_keys ks with
  | none => orig
  | some written => written

/-! ## Cache key (`_cache_key`, lines 81-82) -/

/-- `_cache_key`: the string `"%s__%s__" % (self.host, self.user)`. -/
def cache_key (host user : String) : String :=
  host ++ "__" ++ user ++ "__"

/-! ### Trust-store lemmas -/

theorem writeOldLoop_eq_filter (ks : List HostKeyEntry) :
    writeOldLoop ks = (ks.filter (fun e => !e.addedThisTime)).map formatLine := by
  induction ks with
  | nil => rfl
  | cons e rest ih =>
    by_cases h : e.addedThisTime <;>
      simp [writeOldLoop, List.filter_cons, h, ih]

theorem writeNewLoop_eq_filter (ks : List HostKeyEntry) :
    writeNewLoop ks = (ks.filter (fun e => e.addedThisTime)).map formatLine := by
  induction ks with
  | nil => rfl
  | cons e rest ih =>
    by_cases h : e.addedThisTime <;>
      simp [writeNewLoop, List.filter_cons, h, ih]

theorem addedAny_eq_any (ks : List HostKeyEntry) :
    addedAny ks = ks.any (fun e => e.addedThisTime) := by
  induction ks with
  | nil => rfl
  | cons e rest ih => simp [addedAny, List.any_cons, ih]

/-- C1: when at least one key is tagged as accepted-this-session,
`_save_ssh_host_keys` writes a file whose prefix is exactly the formatted
lines of the pre-existing (not newly-accepted) entries, in their original
relative order and verbatim, followed by exactly one line per newly-accepted
key (also in order). -/
theorem save_writes_old_then_new (ks : List HostKeyEntry)
    (h : addedAny ks = true) :
    ∃ out, save_ssh_host_keys ks = some out ∧
      out = (ks.filter (fun e => !e.addedThisTime)).map formatLine ++
            (ks.filter (fun e => e.addedThisTime)).map formatLine ∧
      out.take (ks.countP (fun e => !e.addedThisTime)) =
        (ks.filter (fun e => !e.addedThisTime)).map formatLine ∧
      (out.drop (ks.countP (fun e => !e.addedThisTime))).length =
        ks.countP (fun e => e.addedThisTime) := by
  refine ⟨writeOldLoop ks ++ writeNewLoop ks, ?_, ?_, ?_, ?_⟩
  · simp [save_ssh_host_keys, h]
  · rw [writeOldLoop_eq_filter, writeNewLoop_eq_filter]
  · rw [writeOldLoop_eq_filter, writeNewLoop_eq_filter,
      List.take_append_of_le_length]
    · rw [List.take_of_length_le]
      simp [List.countP_eq_length_filter]
    · simp [List.countP_eq_length_filter]
  · rw [writeOldLoop_eq_filter, writeNewLoop_eq_filter, List.drop_append_of_le_length]
    · rw [List.drop_of_length_le]
      · simp [List.countP_eq_length_filter]
      · simp [List.countP_eq_length_filter]
    · simp [List.countP_eq_length_filter]

/-- Witness for `save_writes_old_then_new` on a concrete two-entry store. -/
theorem save_writes_old_then_new_witness :
    ∃ out,
      save_ssh_host_keys
        [⟨"h1", "ssh-rsa", "AAA", false⟩, ⟨"h2", "ssh-rsa", "BBB", true⟩] = some out ∧
      out = ([⟨"h1", "ssh-rsa", "AAA", false⟩, ⟨"h2", "ssh-rsa", "BBB", true⟩].filter
               (fun e : HostKeyEntry => !e.addedThisTime)).map formatLine ++
            ([⟨"h1", "ssh-rsa", "AAA", false⟩, ⟨"h2", "ssh-rsa", "BBB", true⟩].filter
               (fun e : HostKeyEntry => e.addedThisTime)).map formatLine ∧
      out.take ([⟨"h1", "ssh-rsa", "AAA", false⟩, ⟨"h2", "ssh-rsa", "BBB", true⟩].countP
                  (fun e : HostKeyEntry => !e.addedThisTime)) =
        ([⟨"h1", "ssh-rsa", "AAA", false⟩, ⟨"h2", "ssh-rsa", "BBB", true⟩].filter
           (fun e : HostKeyEntry => !e.addedThisTime)).map formatLine ∧
      (out.drop ([⟨"h1", "ssh-rsa", "AAA", false⟩, ⟨"h2", "ssh-rsa", "BBB", true⟩].countP
                   (fun e : HostKeyEntry => !e.addedThisTime))).length =
        [⟨"h1", "ssh-rsa", "AAA", false⟩, ⟨"h2", "ssh-rsa", "BBB", true⟩].countP
          (fun e : HostKeyEntry => e.addedThisTime) :=
  save_writes_old_then_new
    [⟨"h1", "ssh-rsa", "AAA", false⟩, ⟨"h2", "ssh-rsa", "BBB", true⟩] (by decide)

/-- C4: when no key is tagged as accepted-this-session, the persistence step
in `close` leaves the trust file's bytes unchanged (`_save_ssh_host_keys`
returns before opening the file). -/
theorem close_no_new_keys_no_write (orig : List String) (ks : List HostKeyEntry)
    (h : ∀ e ∈ ks, e.addedThisTime = false) :
    save_ssh_host_keys ks = none ∧ trustFileAfterClose orig ks = orig := by
  have hany : addedAny ks = false := by
    rw [addedAny_eq_any]
    simp only [List.any_eq_false]
    intro e he
    simp [h e he]
  constructor
  · simp [save_ssh_host_keys, hany]
  · simp [trustFileAfterClose, save_ssh_host_keys, hany]

/-- Witness for `close_no_new_keys_no_write` on a concrete store with one
pre-existing key. -/
theorem close_no_new_keys_no_write_witness :
    save_ssh_host_keys [⟨"h1", "ssh-rsa", "AAA", false⟩] = none ∧
      trustFileAfterClose ["h1 ssh-rsa AAA\n"] [⟨"h1", "ssh-rsa", "AAA", false⟩] =
        ["h1 ssh-rsa AAA\n"] :=
  close_no_new_keys_no_write ["h1 ssh-rsa AAA\n"] [⟨"h1", "ssh-rsa", "AAA", false⟩]
    (by decide)

/-- C10: `_cache_key` is not injective: host `"a__b"` with user `"c"` and
host `"a"` with user `"b__c"` yield the same key although the pairs differ. -/
theorem cache_key_not_injective :
    cache_key "a__b" "c" = cache_key "a" "b__c" ∧
      (("a__b", "c") : String × String) ≠ ("a", "b__c") := by
  constructor
  · rfl
  · decide

/-! ## Sudo prompt scanner (`exec_command`, lines 162-178)

The `while not sudo_output.endswith(prompt)` loop runs only when sudo is
requested and `self.runner.sudo_pass` is set.  Each iteration calls
`chan.recv(bufsize)`; an empty chunk means the stream closed.  The loop is
embedded as structural recursion over the list of chunks `recv` will
deliver; exhausting the list means `recv` would block, modelled as `none`. -/

/-- Python's substring test `pat in l` on the character lists. -/
def listContainsSub (pat : List Char) : List Char → Bool
  | [] => pat.isEmpty
  | c :: rest => pat.isPrefixOf (c :: rest) || listContainsSub pat rest

/-- `'unknown user' in sudo_output` (line 169). -/
def strContains (s pat : String) : Bool :=
  listContainsSub pat.data s.data

/-- Python's `s.endswith(suffix)`: `suffix` is a suffix of `s`. -/
def strEndsWith (s suffix : String) : Bool :=
  suffix.data.isSuffixOf s.data

/-- Outcome of one elevation-mode prompt scan. -/
inductive ScanResult where
  /-- The loop exited because `sudo_output.endswith(prompt)`; the next
  statement sends `self.runner.sudo_pass + '\n'` (line 176). -/
  | satisfied (acc : String)
  /-- `raise errors.AnsibleError('user %s does not exist' % sudo_user)` (line 170). -/
  | userNotFound (acc : String)
  /-- `raise errors.AnsibleError('ssh connection closed waiting for password
  prompt')` (line 173). -/
  | closedEarly (acc : String)
  deriving DecidableEq, Repr

/-- The prompt-wait loop (lines 166-175), with `acc` playing `sudo_output`:
exit with the secret written once the accumulated output ends with `prompt`;
on an empty chunk raise user-not-found when the partial output contains
`"unknown user"` and the generic closed-early error otherwise; on a data
chunk append it and loop. -/
def scanLoop (prompt : String) (acc : String) : List String → Option ScanResult
  | [] => if strEndsWith acc prompt then some (.satisfied acc) else none
  | c :: rest =>
    if strEndsWith acc prompt then some (.satisfied acc)
    else if c = "" then
      some (if strContains acc "unknown user" then .userNotFound acc
            else .closedEarly acc)
    else scanLoop prompt (acc ++ c) rest

theorem scanLoop_satisfied_endsWith (prompt : String) :
    ∀ (cs : List String) (acc out : String),
      scanLoop prompt acc cs = some (ScanResult.satisfied out) →
      strEndsWith out prompt = true := by
  intro cs
  induction cs with
  | nil =>
    intro acc out h
    by_cases he : strEndsWith acc prompt = true
    · simp only [scanLoop, if_pos he, Option.some.injEq,
        ScanResult.satisfied.injEq] at h
      exact h ▸ he
    · simp [scanLoop, he] at h
  | cons c rest ih =>
    intro acc out h
    by_cases he : strEndsWith acc prompt = true
    · simp only [scanLoop, if_pos he, Option.some.injEq,
        ScanResult.satisfied.injEq] at h
      exact h ▸ he
    · by_cases hc : c = ""
      · simp only [scanLoop, if_neg he, if_pos hc, Option.some.injEq] at h
        by_cases hu : strContains acc "unknown user" = true <;>
          simp [hu] at h
      · simp only [scanLoop, if_neg he, if_neg hc] at h
        exact ih (acc ++ c) out h

theorem scanLoop_endsWith_satisfied (prompt acc : String) (cs : List String)
    (he : strEndsWith acc prompt = true) :
    scanLoop prompt acc cs = some (ScanResult.satisfied acc) := by
  cases cs <;> simp [scanLoop, he]

theorem scanLoop_step (prompt acc c : String) (rest : List String)
    (he : strEndsWith acc prompt = false) (hc : c ≠ "") :
    scanLoop prompt acc (c :: rest) = scanLoop prompt (acc ++ c) rest := by
  simp [scanLoop, he, hc]

/-- C2: with a configured secret, the scanner leaves AWAITING_PROMPT (and the
secret is then written) exactly when the accumulated output ends with the
prompt marker: (1) any accumulated output ending with the marker exits the
loop at once with that output; (2) every satisfied exit's output ends with
the marker; (3) when the accumulated output does not end with the marker —
in particular when the marker occurs only partially or not at the tail — a
data chunk merely extends the accumulation and scanning continues. -/
theorem scan_satisfied_iff_trailing_marker (prompt : String) :
    (∀ (acc : String) (cs : List String), strEndsWith acc prompt = true →
      scanLoop prompt acc cs = some (ScanResult.satisfied acc)) ∧
    (∀ (cs : List String) (acc out : String),
      scanLoop prompt acc cs = some (ScanResult.satisfied out) →
      strEndsWith out prompt = true) ∧
    (∀ (acc c : String) (rest : List String),
      strEndsWith acc prompt = false → c ≠ "" →
      scanLoop prompt acc (c :: rest) = scanLoop prompt (acc ++ c) rest) :=
  ⟨fun acc cs he => scanLoop_endsWith_satisfied prompt acc cs he,
   scanLoop_satisfied_endsWith prompt,
   fun acc c rest he hc => scanLoop_step prompt acc c rest he hc⟩

/-- Witness for `scan_satisfied_iff_trailing_marker`: the marker `"d: "`
occurs inside `"abd: xy"` but not at the tail, so scanning continues past it;
after the chunk `"cd: "` the accumulation `"abd: xycd: "` ends with the
marker and the scan reports satisfied. -/
theorem scan_satisfied_iff_trailing_marker_witness :
    scanLoop "d: " "abd: xycd: " [] = some (ScanResult.satisfied "abd: xycd: ") ∧
    strEndsWith "abd: xycd: " "d: " = true ∧
    scanLoop "d: " "abd: xy" ["cd: "] = scanLoop "d: " ("abd: xy" ++ "cd: ") [] :=
  ⟨(scan_satisfied_iff_trailing_marker "d: ").1 "abd: xycd: " [] (by decide),
   (scan_satisfied_iff_trailing_marker "d: ").2.1 [] "abd: xycd: " "abd: xycd: "
     ((scan_satisfied_iff_trailing_marker "d: ").1 "abd: xycd: " [] (by decide)),
   (scan_satisfied_iff_trailing_marker "d: ").2.2 "abd: xy" "cd: " [] (by decide)
     (by decide)⟩

theorem scanLoop_userNotFound_contains (prompt : String) :
    ∀ (cs : List String) (acc out : String),
      scanLoop prompt acc cs = some (ScanResult.userNotFound out) →
      strContains out "unknown user" = true := by
  intro cs
  induction cs with
  | nil =>
    intro acc out h
    by_cases he : strEndsWith acc prompt = true <;> simp [scanLoop, he] at h
  | cons c rest ih =>
    intro acc out h
    by_cases he : strEndsWith acc prompt = true
    · simp [scanLoop, he] at h
    · by_cases hc : c = ""
      · simp only [scanLoop, if_neg he, if_pos hc, Option.some.injEq] at h
        by_cases hu : strContains acc "unknown user" = true
        · simp only [if_pos hu, ScanResult.userNotFound.injEq] at h
          exact h ▸ hu
        · simp [hu] at h
      · simp only [scanLoop, if_neg he, if_neg hc] at h
        exact ih (acc ++ c) out h

theorem scanLoop_closedEarly_not_contains (prompt : String) :
    ∀ (cs : List String) (acc out : String),
      scanLoop prompt acc cs = some (ScanResult.closedEarly out) →
      strContains out "unknown user" = false := by
  intro cs
  induction cs with
  | nil =>
    intro acc out h
    by_cases he : strEndsWith acc prompt = true <;> simp [scanLoop, he] at h
  | cons c rest ih =>
    intro acc out h
    by_cases he : strEndsWith acc prompt = true
    · simp [scanLoop, he] at h
    · by_cases hc : c = ""
      · simp only [scanLoop, if_neg he, if_pos hc, Option.some.injEq] at h
        by_cases hu : strContains acc "unknown user" = true
        · simp [hu] at h
        · simp only [if_neg hu, ScanResult.closedEarly.injEq] at h
          exact h ▸ (Bool.not_eq_true _).mp hu
      · simp only [scanLoop, if_neg he, if_neg hc] at h
        exact ih (acc ++ c) out h

/-- C3: when a read returns an empty chunk (stream closed) before the
accumulated output ends with the prompt marker, the scan fails: with the
user-does-not-exist error when the partial output accumulated so far
contains `"unknown user"`, and with the generic
connection-closed-waiting-for-password-prompt error otherwise; moreover
every user-not-found outcome's partial output contains the substring and
every generic closed-early outcome's does not. -/
theorem scan_closed_early_classification (prompt acc : String)
    (rest : List String) (he : strEndsWith acc prompt = false) :
    (scanLoop prompt acc ("" :: rest) =
      some (if strContains acc "unknown user" then ScanResult.userNotFound acc
            else ScanResult.closedEarly acc)) ∧
    (∀ (cs : List String) (a out : String),
      scanLoop prompt a cs = some (ScanResult.userNotFound out) →
      strContains out "unknown user" = true) ∧
    (∀ (cs : List String) (a out : String),
      scanLoop prompt a cs = some (ScanResult.closedEarly out) →
      strContains out "unknown user" = false) := by
  refine ⟨?_, ?_, ?_⟩
  · simp [scanLoop, he]
  · intro cs a out h
    exact scanLoop_userNotFound_contains prompt cs a out h
  · intro cs a out h
    exact scanLoop_closedEarly_not_contains prompt cs a out h

/-- Witness for `scan_closed_early_classification`: output `"x unknown user y"`
(which contains the marker substring) yields the user-not-found error, and
output `"abc"` yields the generic closed-early error. -/
theorem scan_closed_early_classification_witness :
    scanLoop "d: " "x unknown user y" [""] =
      some (ScanResult.userNotFound "x unknown user y") ∧
    scanLoop "d: " "abc" [""] = some (ScanResult.closedEarly "abc") ∧
    strContains "x unknown user y" "unknown user" = true ∧
    strContains "abc" "unknown user" = false := by
  have h1 := (scan_closed_early_classification "d: " "x unknown user y" []
    (by decide)).1
  have h2 := (scan_closed_early_classification "d: " "abc" [] (by decide)).1
  have h3 := (scan_closed_early_classification "d: " "x unknown user y" []
    (by decide)).2.1 [""] "x unknown user y" "x unknown user y"
  have h4 := (scan_closed_early_classification "d: " "abc" [] (by decide)).2.2
    [""] "abc" "abc"
  refine ⟨?_, ?_, ?_, ?_⟩
  · rw [h1]; decide
  · rw [h2]; decide
  · exact h3 (by decide)
  · exact h4 (by decide)

/-! ## Connection and SFTP caches
(`SSH_CONNECTION_CACHE` / `SFTP_CONNECTION_CACHE`, lines 64-65;
`connect`, lines 84-90; `_connect_sftp`, lines 198-204; `put_file`,
lines 184-196; `close` cache eviction, lines 253-257)

The two module-level dicts become association lists inside an explicit
state record.  Live session and SFTP handles are numbered by a counter
`nextId`, so that "the same object" is "the same number" and a handle
built by `_connect_uncached` or `open_sftp` is fresh.  `sftpOpens` counts
the `open_sftp` calls performed, i.e. how many file-transfer sub-channels
have been opened. -/

structure ConnState where
  sshCache : List (String × Nat)
  sftpCache : List (String × Nat)
  nextId : Nat
  sftpOpens : Nat
  deriving DecidableEq, Repr

/-- Dict lookup `cache_key in CACHE` / `CACHE[cache_key]`. -/
def cacheLookup (k : String) : List (String × Nat) → Option Nat
  | [] => none
  | p :: rest => if p.1 = k then some p.2 else cacheLookup k rest

/-- Dict removal `CACHE.pop(cache_key, None)`: total, removing nothing when
the key is absent. -/
def cachePop (k : String) : List (String × Nat) → List (String × Nat)
  | [] => []
  | p :: rest => if p.1 = k then cachePop k rest else p :: cachePop k rest

/-- `connect` (lines 84-90): return the cached session for `_cache_key()` if
present, else build a fresh one via `_connect_uncached` and register it. -/
def connect (host user : String) (st : ConnState) : Nat × ConnState :=
  let k := cache_key host user
  match cacheLookup k st.sshCache with
  | some s => (s, st)
  | none =>
    (st.nextId,
     { st with sshCache := (k, st.nextId) :: st.sshCache, nextId := st.nextId + 1 })

/-- The cache-eviction prefix of `close` (lines 253-257):
`SSH_CONNECTION_CACHE.pop(cache_key, None)` and
`SFTP_CONNECTION_CACHE.pop(cache_key, None)`. -/
def close_caches (host user : String) (st : ConnState) : ConnState :=
  let k := cache_key host user
  { st with sshCache := cachePop k st.sshCache, sftpCache := cachePop k st.sftpCache }

/-- One `open_sftp()` call: yields a fresh file-transfer sub-channel. -/
def openSftpRaw (st : ConnState) : Nat × ConnState :=
  (st.nextId, { st with nextId := st.nextId + 1, sftpOpens := st.sftpOpens + 1 })

/-- `_connect_sftp` (lines 198-204): return the cached SFTP handle for the
`(host, user)` key if present, else `self.connect().ssh.open_sftp()` and
register the result. -/
def connect_sftp (host user : String) (st : ConnState) : Nat × ConnState :=
  let k := cache_key host user
  match cacheLookup k st.sftpCache with
  | some s => (s, st)
  | none =>
    let st₁ := (connect host user st).2
    let r := openSftpRaw st₁
    (r.1, { r.2 with sftpCache := (k, r.1) :: r.2.sftpCache })

/-- `fetch_file` (lines 206-216), SFTP-acquisition aspect:
`self.sftp = self._connect_sftp()`. -/
def fetch_file (host user : String) (st : ConnState) : Nat × ConnState :=
  connect_sftp host user st

inductive TransferErr where
  /-- `AnsibleFileNotFound("file or module does not exist: %s")` (line 188). -/
  | fileNotFound (path : String)
  deriving DecidableEq, Repr

/-- `put_file` (lines 184-196), SFTP-acquisition aspect: after the local
existence check it runs `self.sftp = self.ssh.open_sftp()` (line 190) — a
fresh `open_sftp` on every call, never consulting `SFTP_CONNECTION_CACHE`.
`localExists` models `os.path.exists(in_path)`. -/
def put_file (in_path : String) (localExists : Bool) (st : ConnState) :
    Except TransferErr Nat × ConnState :=
  if localExists = false then (.error (.fileNotFound in_path), st)
  else
    let r := openSftpRaw st
    (.ok r.1, r.2)

/-- Every cached handle id predates the counter. -/
def Wf (st : ConnState) : Prop :=
  (∀ p ∈ st.sshCache, p.2 < st.nextId) ∧ (∀ p ∈ st.sftpCache, p.2 < st.nextId)

theorem cacheLookup_pop_self (k : String) :
    ∀ c : List (String × Nat), cacheLookup k (cachePop k c) = none := by
  intro c
  induction c with
  | nil => rfl
  | cons p rest ih =>
    by_cases h : p.1 = k
    · simp [cachePop, h, ih]
    · simp [cachePop, cacheLookup, h, ih]

theorem cachePop_of_absent (k : String) :
    ∀ c : List (String × Nat), cacheLookup k c = none → cachePop k c = c := by
  intro c
  induction c with
  | nil => intro _; rfl
  | cons p rest ih =>
    intro h
    by_cases hp : p.1 = k
    · simp [cacheLookup, hp] at h
    · simp only [cacheLookup, if_neg hp] at h
      simp [cachePop, hp, ih h]

theorem cacheLookup_lt (k : String) (n : Nat) :
    ∀ (c : List (String × Nat)) (v : Nat),
      (∀ p ∈ c, p.2 < n) → cacheLookup k c = some v → v < n := by
  intro c
  induction c with
  | nil => intro v _ h; simp [cacheLookup] at h
  | cons p rest ih =>
    intro v hall h
    by_cases hp : p.1 = k
    · simp only [cacheLookup, if_pos hp, Option.some.injEq] at h
      exact h ▸ hall p (List.mem_cons_self p rest)
    · simp only [cacheLookup, if_neg hp] at h
      exact ih v (fun q hq => hall q (List.mem_cons_of_mem p hq)) h

theorem connect_lookup_self (host user : String) (st : ConnState) :
    cacheLookup (cache_key host user) ((connect host user st).2).sshCache =
      some (connect host user st).1 := by
  unfold connect
  cases h : cacheLookup (cache_key host user) st.sshCache with
  | some s => simp [h]
  | none => simp [h, cacheLookup]

theorem connect_fst_lt (host user : String) (st : ConnState) (hwf : Wf st) :
    (connect host user st).1 < ((connect host user st).2).nextId := by
  unfold connect
  cases h : cacheLookup (cache_key host user) st.sshCache with
  | some s =>
    simpa [h] using cacheLookup_lt (cache_key host user) st.nextId st.sshCache s
      hwf.1 h
  | none => simp [h]

theorem close_caches_nextId (host user : String) (st : ConnState) :
    (close_caches host user st).nextId = st.nextId := rfl

/-- C6: for every `(host, user)` pair, (1) a second `connect` returns the same
cached session and leaves the caches unchanged; (2) `connect` after the
`close` eviction builds a session distinct from the cached one and registers
it under the pair's key; (3) the eviction removes the pair's entries from
both caches, and (4) it is a total no-op — no error, no change — when the
entries are already absent. -/
theorem connect_cache_contract (host user : String) (st : ConnState)
    (hwf : Wf st) :
    connect host user ((connect host user st).2) = connect host user st ∧
    (connect host user
        (close_caches host user ((connect host user st).2))).1 ≠
      (connect host user st).1 ∧
    cacheLookup (cache_key host user)
        ((connect host user
            (close_caches host user ((connect host user st).2))).2).sshCache =
      some (connect host user
        (close_caches host user ((connect host user st).2))).1 ∧
    cacheLookup (cache_key host user)
        ((close_caches host user st).sshCache) = none ∧
    cacheLookup (cache_key host user)
        ((close_caches host user st).sftpCache) = none ∧
    (cacheLookup (cache_key host user) st.sshCache = none →
     cacheLookup (cache_key host user) st.sftpCache = none →
     close_caches host user st = st) := by
  refine ⟨?_, ?_, ?_, ?_, ?_, ?_⟩
  · have h := connect_lookup_self host user st
    conv_lhs => rw [connect]
    rw [h]
  · have hlt := connect_fst_lt host user st hwf
    have hnone : cacheLookup (cache_key host user)
        (close_caches host user ((connect host user st).2)).sshCache = none :=
      cacheLookup_pop_self _ _
    conv_lhs => rw [connect]
    rw [hnone]
    simp only [close_caches_nextId]
    exact fun h => absurd h.symm (Nat.ne_of_lt hlt)
  · exact connect_lookup_self host user _
  · exact cacheLookup_pop_self _ _
  · exact cacheLookup_pop_self _ _
  · intro h1 h2
    cases st with
    | mk ssh sftp nid ops =>
      simp only [close_caches]
      rw [cachePop_of_absent _ _ h1, cachePop_of_absent _ _ h2]

/-- Witness for `connect_cache_contract` at the empty initial state. -/
theorem connect_cache_contract_witness :
    connect "h" "u" ((connect "h" "u" (ConnState.mk [] [] 0 0)).2) =
      connect "h" "u" (ConnState.mk [] [] 0 0) ∧
    (connect "h" "u"
        (close_caches "h" "u" ((connect "h" "u" (ConnState.mk [] [] 0 0)).2))).1 ≠
      (connect "h" "u" (ConnState.mk [] [] 0 0)).1 ∧
    cacheLookup (cache_key "h" "u")
        ((connect "h" "u"
            (close_caches "h" "u"
              ((connect "h" "u" (ConnState.mk [] [] 0 0)).2))).2).sshCache =
      some (connect "h" "u"
        (close_caches "h" "u" ((connect "h" "u" (ConnState.mk [] [] 0 0)).2))).1 ∧
    cacheLookup (cache_key "h" "u")
        ((close_caches "h" "u" (ConnState.mk [] [] 0 0)).sshCache) = none ∧
    cacheLookup (cache_key "h" "u")
        ((close_caches "h" "u" (ConnState.mk [] [] 0 0)).sftpCache) = none ∧
    (cacheLookup (cache_key "h" "u") (ConnState.mk [] [] 0 0).sshCache = none →
     cacheLookup (cache_key "h" "u") (ConnState.mk [] [] 0 0).sftpCache = none →
     close_caches "h" "u" (ConnState.mk [] [] 0 0) = ConnState.mk [] [] 0 0) :=
  connect_cache_contract "h" "u" (ConnState.mk [] [] 0 0)
    ⟨fun p hp => absurd hp (List.not_mem_nil p),
     fun p hp => absurd hp (List.not_mem_nil p)⟩

theorem connect_sftp_lookup_self (host user : String) (st : ConnState) :
    cacheLookup (cache_key host user) ((connect_sftp host user st).2).sftpCache =
      some (connect_sftp host user st).1 := by
  unfold connect_sftp
  cases h : cacheLookup (cache_key host user) st.sftpCache with
  | some s => simp [h]
  | none => simp [h, cacheLookup]

/-- C7 counterexample: starting from the empty caches, two consecutive
`put_file` calls (existing local file, same connection and hence the same
`(host, user)` pair) perform two `open_sftp` calls, obtain two distinct
file-transfer sub-channels (ids 0 and 1) and leave `SFTP_CONNECTION_CACHE`
empty — contradicting "both put and get obtain their sub-channel from the
per-pair cache, so repeated transfers open at most one sub-channel". -/
theorem put_file_bypasses_sftp_cache :
    (put_file "f" true ((put_file "f" true (ConnState.mk [] [] 0 0)).2)).2.sftpOpens = 2 ∧
    (put_file "f" true ((put_file "f" true (ConnState.mk [] [] 0 0)).2)).2.sftpCache = [] ∧
    (put_file "f" true (ConnState.mk [] [] 0 0)).1 = Except.ok 0 ∧
    (put_file "f" true ((put_file "f" true (ConnState.mk [] [] 0 0)).2)).1 = Except.ok 1 :=
  ⟨rfl, rfl, rfl, rfl⟩

/-- C7 amended: only `fetch_file` (get) obtains its file-transfer sub-channel
from the per-`(host, user)` cache — lazily opened on first use and returned
unchanged, with the same handle, on a repeated call — while `put_file` opens
a fresh sub-channel on every call and never consults or fills the cache. -/
theorem sftp_cache_get_only (host user in_path : String) (st : ConnState) :
    fetch_file host user ((fetch_file host user st).2) =
      fetch_file host user st ∧
    cacheLookup (cache_key host user) ((fetch_file host user st).2).sftpCache =
      some (fetch_file host user st).1 ∧
    (put_file in_path true st).2.sftpOpens = st.sftpOpens + 1 ∧
    (put_file in_path true st).2.sftpCache = st.sftpCache := by
  refine ⟨?_, connect_sftp_lookup_self host user st, rfl, rfl⟩
  show connect_sftp host user ((connect_sftp host user st).2) = _
  have h := connect_sftp_lookup_self host user st
  conv_lhs => rw [connect_sftp]
  rw [h]
  rfl

/-- C8: a `put_file` call whose local source path does not exist fails with
the distinct `AnsibleFileNotFound` error before any network I/O: the state
is untouched, so in particular no `open_sftp` call was made and no transfer
channel opened. -/
theorem put_file_missing_local (in_path : String) (st : ConnState) :
    put_file in_path false st =
      (Except.error (TransferErr.fileNotFound in_path), st) ∧
    (put_file in_path false st).2.sftpOpens = st.sftpOpens :=
  ⟨rfl, rfl⟩

/-! ## Trust persistence in `close` (lines 261-277)

`lockfile = self.keyfile.replace(...)`, `KEY_LOCK = open(lockfile, 'w')` and
`fcntl.flock(KEY_LOCK, fcntl.LOCK_EX)` run OUTSIDE the `try` block; the
`try` covers only `load_system_host_keys`, the `_host_keys.update` merge and
`_save_ssh_host_keys`, whose failure prints a traceback (`traceback.print_exc()`)
and is suppressed (`pass`). -/

/-- Which steps of the persistence sequence fail in a given run. -/
structure CloseEnv where
  /-- `open(lockfile, 'w')` raises (e.g. `~/.ssh` missing or unwritable). -/
  lockOpenFails : Bool
  /-- `fcntl.flock(KEY_LOCK, fcntl.LOCK_EX)` raises. -/
  flockFails : Bool
  /-- The guarded reload/merge/write (lines 267-271) raises. -/
  persistFails : Bool
  deriving DecidableEq, Repr

inductive CloseTrustOutcome where
  /-- `close` reaches `self.ssh.close()`: `wrote` tells whether the trust file
  was rewritten, `loggedTraceback` whether the except-branch printed a
  traceback. -/
  | completed (wrote : Bool) (loggedTraceback : Bool)
  /-- An exception escapes `close` at the named step. -/
  | raised (step : String)
  deriving DecidableEq, Repr

/-- The trust-persistence step of `close` (lines 261-277). -/
def closeTrustStep (e : CloseEnv) : CloseTrustOutcome :=
  if e.lockOpenFails then .raised "open lock file"
  else if e.flockFails then .raised "flock lock file"
  else if e.persistFails then .completed false true
  else .completed true false

/-- C5 counterexample: when opening the lock file fails, the exception is
raised before the `try` block and propagates out of `close` — the failure is
neither caught nor logged and the remaining teardown is skipped,
contradicting "a failure anywhere in the trust-persistence step — including
failing to create or lock the lock file — is caught, logged, and never
propagated". -/
theorem close_lock_failure_propagates :
    closeTrustStep (CloseEnv.mk true false false) =
      CloseTrustOutcome.raised "open lock file" := rfl

/-- C5 amended: only failures inside the guarded reload/merge/write region
are caught, logged via a printed traceback, and suppressed, with `close`
completing the rest of its teardown; failures creating or locking the lock
file occur outside the `try` block and propagate to the caller. -/
theorem close_swallows_persist_errors (e : CloseEnv)
    (h1 : e.lockOpenFails = false) (h2 : e.flockFails = false) :
    closeTrustStep e =
      CloseTrustOutcome.completed (!e.persistFails) e.persistFails := by
  cases e with
  | mk lo fl pe =>
    simp only at h1 h2
    subst h1
    subst h2
    cases pe <;> rfl

/-- Witness for `close_swallows_persist_errors`: a failing guarded write is
logged and swallowed, `close` completes. -/
theorem close_swallows_persist_errors_witness :
    closeTrustStep (CloseEnv.mk false false true) =
      CloseTrustOutcome.completed false true :=
  close_swallows_persist_errors (CloseEnv.mk false false true) rfl rfl

/-! ## Pseudo-terminal sizing (`exec_command`, lines 157-159)

`chan.get_pty(term=os.getenv('TERM', 'vt100'), width=int(os.getenv('COLUMNS', 0)),
height=int(os.getenv('LINES', 0)))`.  `os.getenv(name, default)` yields the
variable's string when set, else the default; Python's `int()` on a string
strips whitespace, accepts an optional sign and a nonempty run of decimal
digits, and raises `ValueError` otherwise. -/

def dropLeadingSpaces : List Char → List Char
  | [] => []
  | c :: rest => if c.isWhitespace then dropLeadingSpaces rest else c :: rest

/-- Python's `str.strip()` as applied by `int()`. -/
def pyStrip (cs : List Char) : List Char :=
  (dropLeadingSpaces (dropLeadingSpaces cs).reverse).reverse

/-- A nonempty all-digit run, as a number. -/
def parseDigits (cs : List Char) : Option Nat :=
  if cs.isEmpty then none
  else if cs.all Char.isDigit then
    some (cs.foldl (fun n c => n * 10 + (c.toNat - 48)) 0)
  else none

/-- Python 2 `int(s)` for a string argument: `some` value or `none` for
`ValueError`. -/
def pyIntParse (s : String) : Option Int :=
  match pyStrip s.data with
  | '-' :: rest => (parseDigits rest).map (fun n => -(n : Int))
  | '+' :: rest => (parseDigits rest).map (fun n => (n : Int))
  | cs => (parseDigits cs).map (fun n => (n : Int))

/-- `int(os.getenv(name, 0))`: an unset variable yields the integer default
`0` unchanged; a set variable goes through `int()` and may raise. -/
def getenvInt (v : Option String) : Except String Int :=
  match v with
  | none => .ok 0
  | some s =>
    match pyIntParse s with
    | some n => .ok n
    | none => .error ("invalid literal for int() with base 10: " ++ s)

/-- The `get_pty` argument computation (lines 157-159): terminal type from
`TERM` with default `"vt100"`, then `int(COLUMNS)`, then `int(LINES)`,
evaluated left to right; an error aborts `exec_command`. -/
def get_pty_args (termEnv colsEnv linesEnv : Option String) :
    Except String (String × Int × Int) :=
  match getenvInt colsEnv with
  | .error m => .error m
  | .ok w =>
    match getenvInt linesEnv with
    | .error m => .error m
    | .ok h => .ok (termEnv.getD "vt100", w, h)

/-- C9 counterexample: with `COLUMNS` set to the non-numeric string
`"wide"`, the pseudo-terminal allocation fails with a `ValueError` instead
of falling back to the fixed default size — contradicting "when the
terminal-size environment variables are unset or non-numeric the allocation
falls back to fixed default sizes without failing". -/
theorem get_pty_nonnumeric_fails :
    get_pty_args none (some "wide") (some "24") =
      Except.error "invalid literal for int() with base 10: wide" := rfl

/-- C9 amended: the pseudo-terminal size is taken from the caller's
`COLUMNS`/`LINES` environment (terminal type from `TERM`, default
`"vt100"`); unset size variables fall back to the fixed default `0` without
failing, but a set, non-numeric value raises a `ValueError` from `int()`
rather than falling back. -/
theorem get_pty_env_sizing (termEnv : Option String) :
    get_pty_args termEnv none none =
      Except.ok (termEnv.getD "vt100", (0 : Int), (0 : Int)) ∧
    (∀ (s t : String) (m n : Int),
      pyIntParse s = some m → pyIntParse t = some n →
      get_pty_args termEnv (some s) (some t) =
        Except.ok (termEnv.getD "vt100", m, n)) := by
  constructor
  · rfl
  · intro s t m n hs ht
    simp [get_pty_args, getenvInt, hs, ht]

/-- Witness for `get_pty_env_sizing`: unset sizes give `(0, 0)`; numeric
`COLUMNS=80`, `LINES=24` give `(80, 24)`. -/
theorem get_pty_env_sizing_witness :
    get_pty_args (some "xterm") none none =
      Except.ok ("xterm", (0 : Int), (0 : Int)) ∧
    get_pty_args (some "xterm") (some "80") (some "24") =
      Except.ok ("xterm", (80 : Int), (24 : Int)) :=
  ⟨(get_pty_env_sizing (some "xterm")).1,
   (get_pty_env_sizing (some "xterm")).2 "80" "24" 80 24 (by rfl) (by rfl)⟩

end ParamikoSsh
